import Mathlib

/-
Verification of the type-deduction rule evaluator specified for the
cpp_effective_modern repository.  The repository consists of pedagogical
C++ snippets (src/deducing_types/*.cpp and friends) whose comments and
assertions document the C++11/14 deduction rules; the specification
reframes that rule set as a single pure evaluator
`deduce(form, init) -> DeducedType | Fails(AmbiguousInitializerList)`.
No such evaluator exists under src/ (the snippets only illustrate its
intended outcomes), so the evaluator below is modelled from the
specification text, kept consistent with the concrete deduction outcomes
documented in the snippets (x, cx, rx, 27, name, someFunc, xx, myWidget2).
-/

/-- Modelled from the spec: value category of an initializer expression
(section 3 of the spec; lvalue or rvalue). -/
inductive ValueCategory
  | lvalue
  | rvalue
  deriving DecidableEq, Repr

/-- Modelled from the spec: reference-ness of a type
(none, lvalue reference, or rvalue reference). -/
inductive RefNess
  | none
  | lvalue
  | rvalue
  deriving DecidableEq, Repr

/-- Modelled from the spec: base type tags, enough to distinguish the
element types appearing in the snippets (int, char, double, string
literals, Widget). -/
inductive BaseTag
  | int
  | char
  | double
  | str
  | widget
  deriving DecidableEq, Repr

/-- Modelled from the spec: the shape of a type.  Initializers use
scalar, array(N), function-signature, brace-list and pointer shapes;
deduced types additionally use the decayed pointer shapes and the
homogeneous-sequence shape produced by brace deduction.  A brace-list
carries the tags of its elements (first element separate, so a
brace-list is never empty, matching the examples in the spec); a pointer
shape carries the const/volatile qualifiers of the pointed-to object. -/
inductive Shape
  | scalar
  | array (n : Nat)
  | funSig
  | braceList (first : BaseTag) (rest : List BaseTag)
  | ptrToElem (pointeeConst pointeeVolatile : Bool)
  | ptrToFun
  | homogeneousSeq
  deriving DecidableEq, Repr

/-- Modelled from the spec: a description of an initializer expression —
value category, reference-ness of its type (e.g. the snippet variable rx
is lvalue-referenced while the literal 27 is not), const/volatile
qualifiers, base type tag and shape. -/
structure Initializer where
  valueCategory : ValueCategory
  refNess : RefNess
  isConst : Bool
  isVolatile : Bool
  baseType : BaseTag
  shape : Shape
  deriving DecidableEq, Repr

/-- Modelled from the spec: the result record of deduction — base type
tag, shape, reference-ness and const/volatile flags. -/
structure DeducedType where
  baseType : BaseTag
  shape : Shape
  refNess : RefNess
  isConst : Bool
  isVolatile : Bool
  deriving DecidableEq, Repr

/-- Modelled from the spec: the enumerated binding shapes of section 3. -/
inductive DeclaredForm
  | ByValue
  | LvalueRef
  | ConstLvalueRef
  | UniversalRef
  | Pointer
  | ConstPointer
  | AutoPlain
  | AutoLvalueRef
  | AutoConstLvalueRef
  | AutoUniversalRef
  | AutoBraced
  | DecltypeAuto
  deriving DecidableEq, Repr

/-- Modelled from the spec: the single error kind of section 7. -/
inductive DeductionError
  | AmbiguousInitializerList
  deriving DecidableEq, Repr

/-- Modelled from the spec: deduction returns a DeducedType or fails with
a DeductionError value (returned, never thrown). -/
inductive DeductionResult
  | ok (t : DeducedType)
  | fails (e : DeductionError)
  deriving DecidableEq, Repr

/-- Modelled from the spec (rule 1): decay of shapes for by-value
deduction.  An array of cv-qualified elements decays to a pointer to the
cv-qualified element type, a function shape decays to a pointer to
function, a pointer shape keeps its pointed-to qualifiers, everything
else is unchanged. -/
def decayShape (c v : Bool) : Shape → Shape
  | .array _ => .ptrToElem c v
  | .funSig => .ptrToFun
  | s => s

/-- Modelled from the spec (rule 1, ByValue): reference-ness stripped,
const/volatile stripped, array/function shapes decayed. -/
def byValueDeduce (init : Initializer) : DeducedType :=
  ⟨init.baseType, decayShape init.isConst init.isVolatile init.shape,
   .none, false, false⟩

/-- Modelled from the spec (rule 2, LvalueRef and ConstLvalueRef):
reference-ness of the initializer is stripped first and the result is
wrapped in an lvalue reference; qualifiers are preserved, ConstLvalueRef
additionally forces const; array/function shapes do not decay. -/
def lvalueRefDeduce (forceConst : Bool) (init : Initializer) : DeducedType :=
  ⟨init.baseType, init.shape, .lvalue,
   init.isConst || forceConst, init.isVolatile⟩

/-- Modelled from the spec (rule 3, UniversalRef): an lvalue initializer
gives an lvalue reference to its type with qualifiers kept; an rvalue
initializer behaves as ByValue except the result is an rvalue
reference. -/
def univRefDeduce (init : Initializer) : DeducedType :=
  match init.valueCategory with
  | .lvalue => ⟨init.baseType, init.shape, .lvalue,
                init.isConst, init.isVolatile⟩
  | .rvalue => { byValueDeduce init with refNess := .rvalue }

/-- Modelled from the spec (rule 4, ConstPointer): forcing pointed-to
const on a pointer shape. -/
def forcePointeeConst : Shape → Shape
  | .ptrToElem _ pv => .ptrToElem true pv
  | s => s

/-- Modelled from the spec (rule 4, Pointer and ConstPointer): analogous
to ByValue — qualifiers of the pointed-to object are preserved,
qualifiers of the pointer itself are dropped, ConstPointer forces
pointed-to const. -/
def pointerDeduce (forceConst : Bool) (init : Initializer) : DeducedType :=
  ⟨init.baseType,
   (if forceConst then forcePointeeConst else id)
     (decayShape init.isConst init.isVolatile init.shape),
   .none, false, false⟩

/-- Modelled from the spec (rules 5 and 6): brace-list deduction yields
the homogeneous-sequence type of the common element type and fails with
AmbiguousInitializerList when the elements do not all share one type. -/
def braceDeduce (first : BaseTag) (rest : List BaseTag) : DeductionResult :=
  if rest.all (fun t => t == first) then
    .ok ⟨first, .homogeneousSeq, .none, false, false⟩
  else
    .fails .AmbiguousInitializerList

/-- Modelled from the spec (rules 5 and 6): the auto forms divert
brace-list initializers to brace deduction and otherwise behave as the
corresponding template rule. -/
def autoDeduce (fallback : DeductionResult) (init : Initializer) :
    DeductionResult :=
  match init.shape with
  | .braceList f r => braceDeduce f r
  | _ => fallback

/-- Modelled from the spec (section 4.1): the deduction engine.
deduce evaluates the fixed rule table over a declared form and an
initializer and returns a DeducedType or the AmbiguousInitializerList
error as a value. -/
def deduce : DeclaredForm → Initializer → DeductionResult
  | .ByValue, init => .ok (byValueDeduce init)
  | .LvalueRef, init => .ok (lvalueRefDeduce false init)
  | .ConstLvalueRef, init => .ok (lvalueRefDeduce true init)
  | .UniversalRef, init => .ok (univRefDeduce init)
  | .Pointer, init => .ok (pointerDeduce false init)
  | .ConstPointer, init => .ok (pointerDeduce true init)
  | .AutoPlain, init => autoDeduce (.ok (byValueDeduce init)) init
  | .AutoLvalueRef, init => autoDeduce (.ok (lvalueRefDeduce false init)) init
  | .AutoConstLvalueRef, init =>
      autoDeduce (.ok (lvalueRefDeduce true init)) init
  | .AutoUniversalRef, init => autoDeduce (.ok (univRefDeduce init)) init
  | .AutoBraced, init => autoDeduce (.ok (byValueDeduce init)) init
  | .DecltypeAuto, init =>
      .ok ⟨init.baseType, init.shape, init.refNess,
           init.isConst, init.isVolatile⟩

/-- Modelled from the spec (section 7): recognizer for the auto forms of
rules 5 and 6, the only forms that can fail. -/
def isAutoForm : DeclaredForm → Bool
  | .AutoPlain => true
  | .AutoLvalueRef => true
  | .AutoConstLvalueRef => true
  | .AutoUniversalRef => true
  | .AutoBraced => true
  | _ => false

/-- Modelled from the spec: a shape is a heterogeneous brace-list when it
is a brace-list whose elements do not all share a single type. -/
def isHeterogeneousBrace : Shape → Bool
  | .braceList f r => !(r.all (fun t => t == f))
  | _ => false

/-- Modelled from the spec (rules 5 and 6) and auto_type_deduction01.cpp:
the type parameter deduced from a brace-list is the common element type
of the list, and nothing is deduced when the elements differ. -/
def braceT (f : BaseTag) (r : List BaseTag) : Option DeducedType :=
  if r.all (fun t => t == f) then
    some ⟨f, .scalar, .none, false, false⟩
  else
    none

/-- Modelled from template_type_deduction01.cpp (f_ref, f_const_ref):
for T-ref and const-T-ref parameters the deduced T drops the
reference-ness of the argument, keeps its qualifiers, and for the
const-T-ref form the forced const is not part of T. -/
def lvalueRefT (dropConst : Bool) (init : Initializer) : DeducedType :=
  ⟨init.baseType, init.shape, .none,
   init.isConst && !dropConst, init.isVolatile⟩

/-- Modelled from template_type_deduction01.cpp (f_univ_ref): for a
universal-reference parameter, an lvalue argument deduces T as an lvalue
reference to the argument type with its qualifiers — the only situation
in which T is deduced to be a reference — and an rvalue argument deduces
T by the by-value rules. -/
def univRefT (init : Initializer) : DeducedType :=
  match init.valueCategory with
  | .lvalue => ⟨init.baseType, init.shape, .lvalue,
                init.isConst, init.isVolatile⟩
  | .rvalue => byValueDeduce init

/-- Modelled from template_type_deduction01.cpp (f_ptr, f_const_ptr):
for T-pointer parameters the deduced T is the pointed-to type with its
qualifiers, the const-T-pointer form excluding the forced const. -/
def pointeeT (dropConst : Bool) (init : Initializer) : DeducedType :=
  match decayShape init.isConst init.isVolatile init.shape with
  | .ptrToElem pc pv => ⟨init.baseType, .scalar, .none,
                         pc && !dropConst, pv⟩
  | s => ⟨init.baseType, s, .none, false, false⟩

/-- Modelled from the spec (rules 5 and 6): the auto forms divert
brace-list initializers to brace-list T deduction. -/
def autoT (fallback : Option DeducedType) (init : Initializer) :
    Option DeducedType :=
  match init.shape with
  | .braceList f r => braceT f r
  | _ => fallback

/-- Modelled from the spec and the deduction outcomes documented in
template_type_deduction01.cpp: the deduced underlying type parameter T
of each declared form, for the forms that have one.  DecltypeAuto has no
type parameter, and a failing brace-list deduction deduces nothing. -/
def deduceT : DeclaredForm → Initializer → Option DeducedType
  | .ByValue, init => some (byValueDeduce init)
  | .LvalueRef, init => some (lvalueRefT false init)
  | .ConstLvalueRef, init => some (lvalueRefT true init)
  | .UniversalRef, init => some (univRefT init)
  | .Pointer, init => some (pointeeT false init)
  | .ConstPointer, init => some (pointeeT true init)
  | .AutoPlain, init => autoT (some (byValueDeduce init)) init
  | .AutoLvalueRef, init => autoT (some (lvalueRefT false init)) init
  | .AutoConstLvalueRef, init => autoT (some (lvalueRefT true init)) init
  | .AutoUniversalRef, init => autoT (some (univRefT init)) init
  | .AutoBraced, init => autoT (some (byValueDeduce init)) init
  | .DecltypeAuto, _ => none

/-- The snippet variable x (int x = 27): int lvalue, no qualifiers. -/
def xInit : Initializer := ⟨.lvalue, .none, false, false, .int, .scalar⟩

/-- The snippet variable cx (const int cx = x), the constIntLvalue of the
spec: const int lvalue. -/
def constIntLvalue : Initializer :=
  ⟨.lvalue, .none, true, false, .int, .scalar⟩

/-- The snippet variable rx (const int& rx = x): const int lvalue whose
type is lvalue-referenced. -/
def rxInit : Initializer := ⟨.lvalue, .lvalue, true, false, .int, .scalar⟩

/-- The literal 27, the mutableIntRvalue of the spec: a non-const int
rvalue. -/
def mutableIntRvalue : Initializer :=
  ⟨.rvalue, .none, false, false, .int, .scalar⟩

/-- The snippet array name (const char name[13]): const char array of
size 13, an lvalue. -/
def nameInit : Initializer := ⟨.lvalue, .none, true, false, .char, .array 13⟩

/-- The snippet function someFunc (void someFunc(int, double)): a
function-shaped lvalue. -/
def someFuncInit : Initializer :=
  ⟨.lvalue, .none, false, false, .int, .funSig⟩

/-- The homogeneous brace-list of the spec example, three ints. -/
def bracesInit : Initializer :=
  ⟨.rvalue, .none, false, false, .int, .braceList .int [.int, .int]⟩

/-- The heterogeneous brace-list of the spec example, two ints and a
string literal. -/
def mixedBracesInit : Initializer :=
  ⟨.rvalue, .none, false, false, .int, .braceList .int [.int, .str]⟩

theorem snippet_anchor_01 : deduce .UniversalRef xInit =
    .ok ⟨.int, .scalar, .lvalue, false, false⟩ := by decide

theorem snippet_anchor_02 : deduce .UniversalRef rxInit =
    .ok ⟨.int, .scalar, .lvalue, true, false⟩ := by decide

theorem snippet_anchor_03 : deduce .UniversalRef mutableIntRvalue =
    .ok ⟨.int, .scalar, .rvalue, false, false⟩ := by decide

theorem snippet_anchor_04 : deduce .ByValue constIntLvalue =
    .ok ⟨.int, .scalar, .none, false, false⟩ := by decide

theorem snippet_anchor_05 : deduce .ByValue nameInit =
    .ok ⟨.char, .ptrToElem true false, .none, false, false⟩ := by decide

theorem snippet_anchor_06 : deduce .LvalueRef nameInit =
    .ok ⟨.char, .array 13, .lvalue, true, false⟩ := by decide

theorem snippet_anchor_07 : deduce .ByValue someFuncInit =
    .ok ⟨.int, .ptrToFun, .none, false, false⟩ := by decide

theorem snippet_anchor_08 : deduce .AutoBraced bracesInit =
    .ok ⟨.int, .homogeneousSeq, .none, false, false⟩ := by decide

theorem snippet_anchor_09 : deduce .AutoBraced mixedBracesInit =
    .fails .AmbiguousInitializerList := by decide

theorem snippet_anchor_10 : deduce .DecltypeAuto rxInit =
    .ok ⟨.int, .scalar, .lvalue, true, false⟩ := by decide

theorem snippet_anchor_11 : deduceT .UniversalRef rxInit =
    some ⟨.int, .scalar, .lvalue, true, false⟩ := by decide

theorem snippet_anchor_12 : deduceT .UniversalRef mutableIntRvalue =
    some ⟨.int, .scalar, .none, false, false⟩ := by decide

theorem snippet_anchor_13 : deduceT .ConstLvalueRef rxInit =
    some ⟨.int, .scalar, .none, false, false⟩ := by decide

theorem snippet_anchor_14 : deduceT .ByValue nameInit =
    some ⟨.char, .ptrToElem true false, .none, false, false⟩ := by decide

/-- C1: for every initializer whose value category is lvalue,
deduce(UniversalRef, init) returns an lvalue reference to the type of
the initializer including its const/volatile qualifiers; in particular
an unqualified lvalue gives an lvalue reference to its exact type. -/
theorem universalRef_lvalue_preserves_type (init : Initializer)
    (h : init.valueCategory = .lvalue) :
    deduce .UniversalRef init =
      .ok ⟨init.baseType, init.shape, .lvalue,
           init.isConst, init.isVolatile⟩ := by
  obtain ⟨vc, rn, c, v, b, s⟩ := init
  cases vc with
  | lvalue => rfl
  | rvalue => cases h

theorem universalRef_lvalue_preserves_type_witness :
    deduce .UniversalRef rxInit =
      .ok ⟨rxInit.baseType, rxInit.shape, .lvalue,
           rxInit.isConst, rxInit.isVolatile⟩ :=
  universalRef_lvalue_preserves_type rxInit rfl

/-- C2: for every initializer whose value category is rvalue,
deduce(UniversalRef, init) gives exactly the ByValue result except that
its reference-ness is rvalue. -/
theorem universalRef_rvalue_matches_byValue (init : Initializer)
    (h : init.valueCategory = .rvalue) :
    ∃ d, deduce .ByValue init = .ok d ∧
      deduce .UniversalRef init = .ok { d with refNess := .rvalue } := by
  obtain ⟨vc, rn, c, v, b, s⟩ := init
  cases vc with
  | lvalue => cases h
  | rvalue => exact ⟨byValueDeduce ⟨.rvalue, rn, c, v, b, s⟩, rfl, rfl⟩

theorem universalRef_rvalue_matches_byValue_witness :
    ∃ d, deduce .ByValue mutableIntRvalue = .ok d ∧
      deduce .UniversalRef mutableIntRvalue =
        .ok { d with refNess := .rvalue } :=
  universalRef_rvalue_matches_byValue mutableIntRvalue rfl

/-- C4: for every initializer, deduce(ByValue, init) succeeds with a
result that has no reference-ness and no const/volatile qualifiers; in
particular a const int lvalue gives plain non-const int. -/
theorem byValue_strips_ref_and_cv :
    (∀ init : Initializer, ∃ d, deduce .ByValue init = .ok d ∧
      d.refNess = .none ∧ d.isConst = false ∧ d.isVolatile = false) ∧
    deduce .ByValue constIntLvalue =
      .ok ⟨.int, .scalar, .none, false, false⟩ := by
  refine ⟨fun init => ⟨byValueDeduce init, rfl, rfl, rfl, rfl⟩, by decide⟩

/-- C8: for every initializer, the result of deduce(ConstLvalueRef, init)
is an lvalue reference carrying the const qualifier regardless of the
const-ness of the initializer, while its volatile qualifier, base type
and shape are preserved; in particular the mutable int rvalue 27 gives a
const-int lvalue reference. -/
theorem constLvalueRef_forces_const :
    (∀ init : Initializer, ∃ d, deduce .ConstLvalueRef init = .ok d ∧
      d.isConst = true ∧ d.isVolatile = init.isVolatile ∧
      d.baseType = init.baseType ∧ d.shape = init.shape ∧
      d.refNess = .lvalue) ∧
    deduce .ConstLvalueRef mutableIntRvalue =
      .ok ⟨.int, .scalar, .lvalue, true, false⟩ := by
  refine ⟨fun init => ⟨lvalueRefDeduce true init, rfl, ?_, rfl, rfl, rfl, rfl⟩,
    by decide⟩
  simp [lvalueRefDeduce]

/-- C9: deduce is a pure function of the declared form and the
initializer: two applications to identical inputs produce structurally
equal results. -/
theorem deduce_deterministic (form : DeclaredForm)
    (init1 init2 : Initializer) (h : init1 = init2) :
    deduce form init1 = deduce form init2 := by
  rw [h]

theorem deduce_deterministic_witness :
    deduce .ByValue xInit = deduce .ByValue xInit :=
  deduce_deterministic .ByValue xInit xInit rfl

theorem braceDeduce_fails_iff (f : BaseTag) (r : List BaseTag) :
    braceDeduce f r = .fails .AmbiguousInitializerList ↔
      (r.all (fun t => t == f)) = false := by
  unfold braceDeduce
  cases hb : r.all (fun t => t == f) <;> simp

/-- C3: deduce fails with AmbiguousInitializerList exactly when the form
is one of the auto forms of rules 5 and 6 and the initializer is a
brace-list whose elements do not all share a single type;
AmbiguousInitializerList is the only error kind and is returned as a
value; a homogeneous brace-list gives the homogeneous-sequence type of
the common element type. -/
theorem ambiguous_error_characterization :
    (∀ (form : DeclaredForm) (init : Initializer),
      deduce form init = .fails .AmbiguousInitializerList ↔
        (isAutoForm form = true ∧ isHeterogeneousBrace init.shape = true)) ∧
    (∀ e : DeductionError, e = .AmbiguousInitializerList) ∧
    (∀ (init : Initializer) (f : BaseTag) (r : List BaseTag),
      init.shape = .braceList f r → r.all (fun t => t == f) = true →
      deduce .AutoBraced init =
        .ok ⟨f, .homogeneousSeq, .none, false, false⟩) := by
  refine ⟨?_, ?_, ?_⟩
  · intro form init
    obtain ⟨vc, rn, c, v, b, s⟩ := init
    cases form <;> cases s <;>
      simp [deduce, autoDeduce, isAutoForm, isHeterogeneousBrace,
        braceDeduce_fails_iff]
  · intro e
    cases e
    rfl
  · intro init f r hs hall
    simp [deduce, autoDeduce, hs, braceDeduce, hall]

theorem ambiguous_error_characterization_witness :
    deduce .AutoBraced bracesInit =
      .ok ⟨.int, .homogeneousSeq, .none, false, false⟩ :=
  ambiguous_error_characterization.2.2 bracesInit .int [.int, .int]
    rfl (by decide)

/-- C5: deduce(DecltypeAuto, init) reproduces the exact type description
of the initializer — base type, shape, reference-ness and const/volatile
qualifiers verbatim — for every initializer, and DecltypeAuto is the
only declared form with this identity property. -/
theorem decltypeAuto_identity_unique :
    (∀ init : Initializer, deduce .DecltypeAuto init =
      .ok ⟨init.baseType, init.shape, init.refNess,
           init.isConst, init.isVolatile⟩) ∧
    (∀ form : DeclaredForm, form ≠ .DecltypeAuto →
      ∃ init : Initializer, deduce form init ≠
        .ok ⟨init.baseType, init.shape, init.refNess,
             init.isConst, init.isVolatile⟩) := by
  constructor
  · intro init
    rfl
  · intro form hf
    cases form
    case DecltypeAuto => exact absurd rfl hf
    case ByValue => exact ⟨rxInit, by decide⟩
    case LvalueRef => exact ⟨mutableIntRvalue, by decide⟩
    case ConstLvalueRef => exact ⟨mutableIntRvalue, by decide⟩
    case UniversalRef => exact ⟨mutableIntRvalue, by decide⟩
    case Pointer => exact ⟨rxInit, by decide⟩
    case ConstPointer => exact ⟨rxInit, by decide⟩
    case AutoPlain => exact ⟨rxInit, by decide⟩
    case AutoLvalueRef => exact ⟨mutableIntRvalue, by decide⟩
    case AutoConstLvalueRef => exact ⟨mutableIntRvalue, by decide⟩
    case AutoUniversalRef => exact ⟨mutableIntRvalue, by decide⟩
    case AutoBraced => exact ⟨rxInit, by decide⟩

theorem decltypeAuto_identity_unique_witness :
    ∃ init : Initializer, deduce .ByValue init ≠
      .ok ⟨init.baseType, init.shape, init.refNess,
           init.isConst, init.isVolatile⟩ :=
  decltypeAuto_identity_unique.2 .ByValue (by decide)

/-- C6: for array-shaped and function-shaped initializers, the LvalueRef
and ConstLvalueRef forms do not decay the shape: the result keeps the
full array type with its size (respectively the full function type),
wrapped in an lvalue reference. -/
theorem refForms_preserve_array_function (form : DeclaredForm)
    (init : Initializer)
    (hform : form = .LvalueRef ∨ form = .ConstLvalueRef)
    (hshape : (∃ n, init.shape = .array n) ∨ init.shape = .funSig) :
    ∃ d, deduce form init = .ok d ∧ d.shape = init.shape ∧
      d.refNess = .lvalue := by
  rcases hform with rfl | rfl
  · exact ⟨lvalueRefDeduce false init, rfl, rfl, rfl⟩
  · exact ⟨lvalueRefDeduce true init, rfl, rfl, rfl⟩

theorem refForms_preserve_array_function_witness :
    ∃ d, deduce .LvalueRef nameInit = .ok d ∧
      d.shape = nameInit.shape ∧ d.refNess = .lvalue :=
  refForms_preserve_array_function .LvalueRef nameInit (Or.inl rfl)
    (Or.inl ⟨13, rfl⟩)

/-- C7: deduce(ByValue, init) decays an array-shaped initializer to a
pointer to the (cv-qualified) element type and a function-shaped
initializer to a pointer to function. -/
theorem byValue_decays_array_function (init : Initializer) :
    (∀ n, init.shape = .array n →
      deduce .ByValue init =
        .ok ⟨init.baseType, .ptrToElem init.isConst init.isVolatile,
             .none, false, false⟩) ∧
    (init.shape = .funSig →
      deduce .ByValue init =
        .ok ⟨init.baseType, .ptrToFun, .none, false, false⟩) := by
  constructor
  · intro n h
    simp [deduce, byValueDeduce, h, decayShape]
  · intro h
    simp [deduce, byValueDeduce, h, decayShape]

theorem byValue_decays_array_function_witness :
    deduce .ByValue nameInit =
      .ok ⟨nameInit.baseType,
           .ptrToElem nameInit.isConst nameInit.isVolatile,
           .none, false, false⟩ ∧
    deduce .ByValue someFuncInit =
      .ok ⟨someFuncInit.baseType, .ptrToFun, .none, false, false⟩ :=
  ⟨(byValue_decays_array_function nameInit).1 13 rfl,
   (byValue_decays_array_function someFuncInit).2 rfl⟩

/-- C10: whenever a declared form deduces an underlying type parameter T
whose reference-ness is not none, the form is the universal-reference
form (or its auto analogue) and the initializer is an lvalue: universal
reference with an lvalue initializer is the only case in which the
deduced type parameter is itself a reference. -/
theorem tparam_reference_only_universalRef_lvalue (form : DeclaredForm)
    (init : Initializer) (d : DeducedType)
    (hd : deduceT form init = some d) (hne : d.refNess ≠ .none) :
    (form = .UniversalRef ∨ form = .AutoUniversalRef) ∧
      init.valueCategory = .lvalue := by
  obtain ⟨vc, rn, c, v, b, s⟩ := init
  cases form <;> cases s <;> cases vc <;>
    simp_all [deduceT, autoT, braceT, byValueDeduce, lvalueRefT, univRefT,
      pointeeT, decayShape] <;>
    (try obtain ⟨-, hd⟩ := hd) <;> (try subst hd) <;> simp_all

theorem tparam_reference_only_universalRef_lvalue_witness :
    (DeclaredForm.UniversalRef = .UniversalRef ∨
      DeclaredForm.UniversalRef = .AutoUniversalRef) ∧
    rxInit.valueCategory = .lvalue :=
  tparam_reference_only_universalRef_lvalue .UniversalRef rxInit
    ⟨.int, .scalar, .lvalue, true, false⟩ (by decide) (by decide)
